import Mathlib

/-!
Shallow embedding of `homework.py`, a fitness-tracker module that computes
distance, mean speed and spent calories from raw sensor packets and renders
a summary.  Python floats are modelled by exact rationals `ℚ`; Python's
float floor-division `a // b` is modelled by `⌊a / b⌋` cast back to `ℚ`.
The three dataclass variants `Running`, `SportsWalking`, `Swimming`
(all extending `Training`) are modelled as one inductive type `Training`
with one constructor per concrete variant, carrying the dataclass fields
in declaration order.
-/

/-- `MIN_IN_H = 60` (module-level constant). -/
def MIN_IN_H : ℚ := 60

/-- `Training.M_IN_KM: ClassVar[int] = 1000`. -/
def M_IN_KM : ℚ := 1000

/-- Python float floor-division `a // b`, which returns `floor(a / b)`. -/
def floordiv (a b : ℚ) : ℚ := ((⌊a / b⌋ : ℤ) : ℚ)

/-- The three concrete training dataclasses.  Field order is the dataclass
field order: base fields `action, duration, weight` first, then the
variant-specific fields (`height` for `SportsWalking`;
`length_pool, count_pool` for `Swimming`).  Python does not coerce the
values bound to the fields, so all fields are modelled as `ℚ`. -/
inductive Training
  | running (action duration weight : ℚ)
  | sportsWalking (action duration weight height : ℚ)
  | swimming (action duration weight length_pool count_pool : ℚ)
  deriving DecidableEq

/-- Field `action` of any variant. -/
def Training.action : Training → ℚ
  | .running a _ _ => a
  | .sportsWalking a _ _ _ => a
  | .swimming a _ _ _ _ => a

/-- Field `duration` of any variant. -/
def Training.duration : Training → ℚ
  | .running _ d _ => d
  | .sportsWalking _ d _ _ => d
  | .swimming _ d _ _ _ => d

/-- Field `weight` of any variant. -/
def Training.weight : Training → ℚ
  | .running _ _ w => w
  | .sportsWalking _ _ w _ => w
  | .swimming _ _ w _ _ => w

/-- `LEN_STEP`: `0.65` on the base class, overridden to `1.38` by
`Swimming` (`Swimming.LEN_STEP: ClassVar[float] = 1.38`). -/
def Training.LEN_STEP : Training → ℚ
  | .swimming _ _ _ _ _ => 1.38
  | _ => 0.65

/-- `Training.get_distance`: `self.action * self.LEN_STEP / self.M_IN_KM`. -/
def Training.get_distance (t : Training) : ℚ :=
  t.action * t.LEN_STEP / M_IN_KM

/-- `get_mean_speed`: the base class returns
`self.get_distance() / self.duration`; `Swimming` overrides it with
`self.length_pool * self.count_pool / self.M_IN_KM / self.duration`. -/
def Training.get_mean_speed : Training → ℚ
  | .swimming _ duration _ length_pool count_pool =>
      length_pool * count_pool / M_IN_KM / duration
  | t => t.get_distance / t.duration

/-- `Training.duration_minutes` property: `self.duration * MIN_IN_H`. -/
def Training.duration_minutes (t : Training) : ℚ :=
  t.duration * MIN_IN_H

/-- `Running.MEAN_SPEED_FACTOR: ClassVar[int] = 18`. -/
def Running.MEAN_SPEED_FACTOR : ℚ := 18

/-- `Running.MEAN_SPEED_SUBTRAHEND: ClassVar[int] = 20`. -/
def Running.MEAN_SPEED_SUBTRAHEND : ℚ := 20

/-- `SportsWalking.WEIGHT_FACTOR_1: ClassVar[float] = 0.035`. -/
def SportsWalking.WEIGHT_FACTOR_1 : ℚ := 0.035

/-- `SportsWalking.WEIGHT_FACTOR_2: ClassVar[float] = 0.029`. -/
def SportsWalking.WEIGHT_FACTOR_2 : ℚ := 0.029

/-- `Swimming.MEAN_SPEED_TERM: ClassVar[float] = 1.1`. -/
def Swimming.MEAN_SPEED_TERM : ℚ := 1.1

/-- `Swimming.WEIGHT_FACTOR: ClassVar[int] = 2`. -/
def Swimming.WEIGHT_FACTOR : ℚ := 2

/-- `get_spent_calories`, one clause per concrete override:
* `Running`: `(MEAN_SPEED_FACTOR * speed - MEAN_SPEED_SUBTRAHEND)
  * weight / M_IN_KM * duration_minutes`;
* `SportsWalking`: `duration_minutes * (WEIGHT_FACTOR_1 * weight
  + (speed ** 2 // height) * WEIGHT_FACTOR_2 * weight)`;
* `Swimming`: `(get_mean_speed() + MEAN_SPEED_TERM) * WEIGHT_FACTOR * weight`. -/
def Training.get_spent_calories : Training → ℚ
  | t@(.running _ _ _) =>
      (Running.MEAN_SPEED_FACTOR * t.get_mean_speed - Running.MEAN_SPEED_SUBTRAHEND)
        * t.weight / M_IN_KM * t.duration_minutes
  | t@(.sportsWalking _ _ _ height) =>
      t.duration_minutes * (SportsWalking.WEIGHT_FACTOR_1 * t.weight
        + floordiv (t.get_mean_speed ^ 2) height * SportsWalking.WEIGHT_FACTOR_2 * t.weight)
  | t@(.swimming _ _ _ _ _) =>
      (t.get_mean_speed + Swimming.MEAN_SPEED_TERM) * Swimming.WEIGHT_FACTOR * t.weight

/-- Python float division raises `ZeroDivisionError` on a zero divisor;
`get_mean_speed` divides by `self.duration` in every variant.  This is
`get_mean_speed` with that exception made explicit as `none`. -/
def Training.get_mean_speed? (t : Training) : Option ℚ :=
  if t.duration = 0 then none else some t.get_mean_speed

/-- `self.__class__.__name__`, used by `show_training_info`. -/
def Training.class_name : Training → String
  | .running _ _ _ => "Running"
  | .sportsWalking _ _ _ _ => "SportsWalking"
  | .swimming _ _ _ _ _ => "Swimming"

/-- `InfoMessage` dataclass (the summary value object). -/
structure InfoMessage where
  training_type : String
  duration : ℚ
  distance : ℚ
  speed : ℚ
  calories : ℚ
  deriving DecidableEq

/-- `Training.show_training_info`: builds the `InfoMessage` from the class
name, `duration`, `get_distance()`, `get_mean_speed()`,
`get_spent_calories()`. -/
def Training.show_training_info (t : Training) : InfoMessage :=
  ⟨t.class_name, t.duration, t.get_distance, t.get_mean_speed, t.get_spent_calories⟩

/-- The numeric value displayed by the `'{x:.3f}'` fields of
`InfoMessage.get_message`: the argument rounded to three decimal places. -/
def roundTo3 (q : ℚ) : ℚ := ((⌊q * 1000 + 1 / 2⌋ : ℤ) : ℚ) / 1000

/-- The concrete training classes, as referenced by the `TRAINING_CLASSES`
dict values. -/
inductive TrainingClass
  | sportsWalking
  | running
  | swimming
  deriving DecidableEq

/-- `len(fields(class_))`: the number of declared dataclass fields of each
concrete class (3 base fields, plus `height` for `SportsWalking`, plus
`length_pool` and `count_pool` for `Swimming`). -/
def TrainingClass.len_fields : TrainingClass → Nat
  | .running => 3
  | .sportsWalking => 4
  | .swimming => 5

/-- `TRAINING_CLASSES = {'WLK': SportsWalking, 'RUN': Running,
'SWM': Swimming}`, accessed through `.get` (so `none` for absent keys). -/
def TRAINING_CLASSES (workout_type : String) : Option TrainingClass :=
  if workout_type = "WLK" then some .sportsWalking
  else if workout_type = "RUN" then some .running
  else if workout_type = "SWM" then some .swimming
  else none

/-- `class_(*data)`: strict positional construction of the dataclass from
the sequence; fails (a Python `TypeError`) unless the arity matches
exactly. -/
def TrainingClass.construct : TrainingClass → List ℚ → Option Training
  | .running, [action, duration, weight] =>
      some (.running action duration weight)
  | .sportsWalking, [action, duration, weight, height] =>
      some (.sportsWalking action duration weight height)
  | .swimming, [action, duration, weight, length_pool, count_pool] =>
      some (.swimming action duration weight length_pool count_pool)
  | _, _ => none

/-- The package-validation exceptions (`PackageTypeError` and
`PackageSizeError`, both subclasses of `PackageValidationError`), carrying
the data interpolated into their message templates. -/
inductive PackageValidationError
  | packageTypeError (workout_type : String)
  | packageSizeError (actual_size expected_size : Nat) (workout_type : String)
  deriving DecidableEq

/-- `read_package`: looks up `workout_type` in `TRAINING_CLASSES`
(raising `PackageTypeError` on a miss), checks `len(data)` against
`len(fields(class_))` (raising `PackageSizeError` on a mismatch), then
returns `class_(*data)`.  The final `none` branch is unreachable: the size
check guarantees the positional construction succeeds. -/
def read_package (workout_type : String) (data : List ℚ) :
    Except PackageValidationError Training :=
  match TRAINING_CLASSES workout_type with
  | none => .error (.packageTypeError workout_type)
  | some class_ =>
      let actual_package_size := data.length
      let expected_package_size := class_.len_fields
      if actual_package_size ≠ expected_package_size then
        .error (.packageSizeError actual_package_size expected_package_size workout_type)
      else
        match class_.construct data with
        | some training => .ok training
        | none =>
            .error (.packageSizeError actual_package_size expected_package_size workout_type)

/-! ## Helper lemmas -/

lemma read_package_run_ok (a d w : ℚ) :
    read_package "RUN" [a, d, w] = .ok (.running a d w) := rfl

lemma read_package_wlk_ok (a d w h : ℚ) :
    read_package "WLK" [a, d, w, h] = .ok (.sportsWalking a d w h) := rfl

lemma read_package_swm_ok (a d w lp cp : ℚ) :
    read_package "SWM" [a, d, w, lp, cp] = .ok (.swimming a d w lp cp) := rfl

lemma list_length_eq_four {α : Type} {l : List α} (h : l.length = 4) :
    ∃ a b c d, l = [a, b, c, d] := by
  rcases l with _ | ⟨a, _ | ⟨b, _ | ⟨c, _ | ⟨d, _ | ⟨e, t⟩⟩⟩⟩⟩
  · simp at h
  · simp at h
  · simp at h
  · simp at h
  · exact ⟨a, b, c, d, rfl⟩
  · simp at h

lemma list_length_eq_five {α : Type} {l : List α} (h : l.length = 5) :
    ∃ a b c d e, l = [a, b, c, d, e] := by
  rcases l with _ | ⟨a, _ | ⟨b, _ | ⟨c, _ | ⟨d, _ | ⟨e, _ | ⟨f, t⟩⟩⟩⟩⟩⟩
  · simp at h
  · simp at h
  · simp at h
  · simp at h
  · simp at h
  · exact ⟨a, b, c, d, e, rfl⟩
  · simp at h

lemma TRAINING_CLASSES_run : TRAINING_CLASSES "RUN" = some .running := rfl

lemma TRAINING_CLASSES_wlk : TRAINING_CLASSES "WLK" = some .sportsWalking := rfl

lemma TRAINING_CLASSES_swm : TRAINING_CLASSES "SWM" = some .swimming := rfl

lemma read_package_run_size_err {data : List ℚ} (h : data.length ≠ 3) :
    read_package "RUN" data = .error (.packageSizeError data.length 3 "RUN") := by
  simp [read_package, TRAINING_CLASSES_run, TrainingClass.len_fields, h]

lemma read_package_wlk_size_err {data : List ℚ} (h : data.length ≠ 4) :
    read_package "WLK" data = .error (.packageSizeError data.length 4 "WLK") := by
  simp [read_package, TRAINING_CLASSES_wlk, TrainingClass.len_fields, h]

lemma read_package_swm_size_err {data : List ℚ} (h : data.length ≠ 5) :
    read_package "SWM" data = .error (.packageSizeError data.length 5 "SWM") := by
  simp [read_package, TRAINING_CLASSES_swm, TrainingClass.len_fields, h]

/-! ## Claims -/

/-- C1: For every `Running` record, `get_spent_calories()` equals
`(18 * mean_speed - 20) * weight / 1000 * (duration * 60)`, where
`mean_speed = action * 0.65 / 1000 / duration`. -/
theorem running_spent_calories_closed_form (action duration weight : ℚ) :
    (Training.running action duration weight).get_spent_calories
      = (18 * (action * 0.65 / 1000 / duration) - 20) * weight / 1000 * (duration * 60) := by
  simp only [Training.get_spent_calories, Training.get_mean_speed, Training.get_distance,
    Training.duration_minutes, Training.action, Training.duration, Training.weight,
    Training.LEN_STEP, M_IN_KM, MIN_IN_H, Running.MEAN_SPEED_FACTOR,
    Running.MEAN_SPEED_SUBTRAHEND]

/-- C7: For every record of every one of the three variants, `get_distance()`
equals `action * step_length / 1000`, where the step length is `0.65` for
`Running` and `SportsWalking` and `1.38` for `Swimming`. -/
theorem get_distance_step_length_form :
    (∀ action duration weight : ℚ,
        (Training.running action duration weight).get_distance = action * 0.65 / 1000) ∧
    (∀ action duration weight height : ℚ,
        (Training.sportsWalking action duration weight height).get_distance
          = action * 0.65 / 1000) ∧
    (∀ action duration weight length_pool count_pool : ℚ,
        (Training.swimming action duration weight length_pool count_pool).get_distance
          = action * 1.38 / 1000) := by
  refine ⟨?_, ?_, ?_⟩ <;> intros <;>
    simp [Training.get_distance, Training.action, Training.LEN_STEP, M_IN_KM]

/-- C8: Swimming's `get_mean_speed()` ignores `action` (and `weight`)
entirely: any two `Swimming` records agreeing on `length_pool`,
`count_pool` and `duration` have the same mean speed, equal to
`length_pool * count_pool / 1000 / duration`. -/
theorem swimming_mean_speed_ignores_action
    (a₁ a₂ w₁ w₂ duration length_pool count_pool : ℚ) :
    (Training.swimming a₁ duration w₁ length_pool count_pool).get_mean_speed
      = (Training.swimming a₂ duration w₂ length_pool count_pool).get_mean_speed ∧
    (Training.swimming a₁ duration w₁ length_pool count_pool).get_mean_speed
      = length_pool * count_pool / 1000 / duration := by
  constructor
  · rfl
  · simp [Training.get_mean_speed, M_IN_KM]

/-- C3: For every known workout-type code (`"RUN"` expecting 3 values,
`"WLK"` expecting 4, `"SWM"` expecting 5) and every numeric sequence,
`read_package` raises a wrong-package-size error carrying the actual
count, the expected count and the code if and only if the sequence's
length differs from that code's expected count; otherwise it constructs
the variant record positionally from the sequence. -/
theorem read_package_arity_check :
    (∀ data : List ℚ,
        read_package "RUN" data = .error (.packageSizeError data.length 3 "RUN")
          ↔ data.length ≠ 3) ∧
    (∀ data : List ℚ,
        read_package "WLK" data = .error (.packageSizeError data.length 4 "WLK")
          ↔ data.length ≠ 4) ∧
    (∀ data : List ℚ,
        read_package "SWM" data = .error (.packageSizeError data.length 5 "SWM")
          ↔ data.length ≠ 5) ∧
    (∀ a d w : ℚ, read_package "RUN" [a, d, w] = .ok (.running a d w)) ∧
    (∀ a d w h : ℚ, read_package "WLK" [a, d, w, h] = .ok (.sportsWalking a d w h)) ∧
    (∀ a d w lp cp : ℚ,
        read_package "SWM" [a, d, w, lp, cp] = .ok (.swimming a d w lp cp)) := by
  refine ⟨?_, ?_, ?_, read_package_run_ok, read_package_wlk_ok, read_package_swm_ok⟩
  · intro data
    constructor
    · intro herr hlen
      obtain ⟨a, b, c, rfl⟩ := List.length_eq_three.mp hlen
      rw [read_package_run_ok] at herr
      exact absurd herr (by simp)
    · exact read_package_run_size_err
  · intro data
    constructor
    · intro herr hlen
      obtain ⟨a, b, c, d, rfl⟩ := list_length_eq_four hlen
      rw [read_package_wlk_ok] at herr
      exact absurd herr (by simp)
    · exact read_package_wlk_size_err
  · intro data
    constructor
    · intro herr hlen
      obtain ⟨a, b, c, d, e, rfl⟩ := list_length_eq_five hlen
      rw [read_package_swm_ok] at herr
      exact absurd herr (by simp)
    · exact read_package_swm_size_err

/-- C4: For every workout-type code outside the fixed three-entry mapping
and every data sequence of any length, `read_package` raises an
unknown-workout-type error carrying the offending code, and never a
wrong-package-size error (the type check precedes the size check). -/
theorem read_package_unknown_workout_type (workout_type : String) (data : List ℚ)
    (h1 : workout_type ≠ "RUN") (h2 : workout_type ≠ "WLK") (h3 : workout_type ≠ "SWM") :
    read_package workout_type data = .error (.packageTypeError workout_type) ∧
    ∀ actual expected : Nat, ∀ code : String,
      read_package workout_type data ≠ .error (.packageSizeError actual expected code) := by
  have hc : TRAINING_CLASSES workout_type = none := by
    simp [TRAINING_CLASSES, h1, h2, h3]
  constructor
  · simp [read_package, hc]
  · intro actual expected code
    simp [read_package, hc]

/-- Witness for C4 at the sample packet `("BIC", [9000, 1])`. -/
theorem read_package_unknown_workout_type_witness :
    read_package "BIC" [9000, 1] = .error (.packageTypeError "BIC") ∧
    ∀ actual expected : Nat, ∀ code : String,
      read_package "BIC" [9000, 1] ≠ .error (.packageSizeError actual expected code) :=
  read_package_unknown_workout_type "BIC" [9000, 1]
    (by decide) (by decide) (by decide)

/-- C10: `read_package` performs no validation of field values: for every
known code and every sequence of the expected length it succeeds, binding
the fields positionally, whatever the values (including a zero or negative
`duration`); the division by `duration` fails only later, inside
`get_mean_speed` (exactly when `duration = 0`), never during
`read_package`. -/
theorem read_package_no_field_validation :
    (∀ a d w : ℚ, read_package "RUN" [a, d, w] = .ok (.running a d w)) ∧
    (∀ a d w h : ℚ, read_package "WLK" [a, d, w, h] = .ok (.sportsWalking a d w h)) ∧
    (∀ a d w lp cp : ℚ,
        read_package "SWM" [a, d, w, lp, cp] = .ok (.swimming a d w lp cp)) ∧
    (∀ t : Training, t.get_mean_speed? = none ↔ t.duration = 0) := by
  refine ⟨read_package_run_ok, read_package_wlk_ok, read_package_swm_ok, ?_⟩
  intro t
  by_cases h : t.duration = 0 <;> simp [Training.get_mean_speed?, h]

/-- C2 counterexample: the summary for `read_package("RUN", [15000, 1, 75])`
reports calories that round to `699.750`, not to anything near `1187.64`,
so the claimed calorie value is false at this concrete input. -/
theorem running_sample_calories_ne_spec_value :
    read_package "RUN" [15000, 1, 75] = .ok (.running 15000 1 75) ∧
    (Training.running 15000 1 75).show_training_info.calories = 699.75 ∧
    roundTo3 (Training.running 15000 1 75).show_training_info.calories = 699.75 ∧
    roundTo3 (Training.running 15000 1 75).show_training_info.calories ≠ 1187.64 := by
  have hc : (Training.running 15000 1 75).show_training_info.calories = 699.75 := by
    norm_num [Training.show_training_info, Training.get_spent_calories,
      Training.get_mean_speed, Training.get_distance, Training.duration_minutes,
      Training.action, Training.duration, Training.weight, Training.LEN_STEP,
      M_IN_KM, MIN_IN_H, Running.MEAN_SPEED_FACTOR, Running.MEAN_SPEED_SUBTRAHEND]
  have hr : roundTo3 (699.75 : ℚ) = 699.75 := by
    norm_num [roundTo3, Int.floor_eq_iff]
  exact ⟨rfl, hc, by rw [hc, hr], by rw [hc, hr]; norm_num⟩

/-- C2 amended: `read_package("RUN", [15000, 1, 75])` returns a `Running`
record whose summary message reports a duration field of `1.000` hours and
spent calories of `699.75` (displayed as `699.750` at three decimal
places). -/
theorem running_sample_summary_fields :
    read_package "RUN" [15000, 1, 75] = .ok (.running 15000 1 75) ∧
    (Training.running 15000 1 75).show_training_info.duration = 1 ∧
    roundTo3 (Training.running 15000 1 75).show_training_info.duration = 1 ∧
    (Training.running 15000 1 75).show_training_info.calories = 699.75 := by
  refine ⟨rfl, rfl, ?_, ?_⟩
  · norm_num [Training.show_training_info, Training.duration, Training.class_name,
      roundTo3, Int.floor_eq_iff]
  · norm_num [Training.show_training_info, Training.get_spent_calories,
      Training.get_mean_speed, Training.get_distance, Training.duration_minutes,
      Training.action, Training.duration, Training.weight, Training.LEN_STEP,
      M_IN_KM, MIN_IN_H, Running.MEAN_SPEED_FACTOR, Running.MEAN_SPEED_SUBTRAHEND]

/-- C5: For every `SportsWalking` record, `get_spent_calories()` equals
`(duration * 60) * (0.035 * weight + floor(mean_speed ^ 2 / height) * 0.029
* weight)` with exact floor semantics; in particular the record from
`read_package("WLK", [9000, 1, 75, 180])` spends exactly `157.5`
calories. -/
theorem sports_walking_spent_calories_floor_form :
    (∀ action duration weight height : ℚ,
        (Training.sportsWalking action duration weight height).get_spent_calories
          = (duration * 60) * (0.035 * weight
              + ((⌊(action * 0.65 / 1000 / duration) ^ 2 / height⌋ : ℤ) : ℚ)
                  * 0.029 * weight)) ∧
    read_package "WLK" [9000, 1, 75, 180] = .ok (.sportsWalking 9000 1 75 180) ∧
    (Training.sportsWalking 9000 1 75 180).get_spent_calories = 157.5 := by
  refine ⟨?_, rfl, ?_⟩
  · intro action duration weight height
    simp only [Training.get_spent_calories, Training.get_mean_speed,
      Training.get_distance, Training.duration_minutes, Training.action,
      Training.duration, Training.weight, Training.LEN_STEP, M_IN_KM, MIN_IN_H,
      SportsWalking.WEIGHT_FACTOR_1, SportsWalking.WEIGHT_FACTOR_2, floordiv]
  · norm_num [Training.get_spent_calories, Training.get_mean_speed,
      Training.get_distance, Training.duration_minutes, Training.action,
      Training.duration, Training.weight, Training.LEN_STEP, M_IN_KM, MIN_IN_H,
      SportsWalking.WEIGHT_FACTOR_1, SportsWalking.WEIGHT_FACTOR_2, floordiv]

/-- C6: `read_package("SWM", [720, 1, 80, 25, 40])` returns a `Swimming`
record with distance `720 * 1.38 / 1000 = 0.9936` km (displayed to three
decimals as `0.994`), mean speed `25 * 40 / 1000 / 1 = 1`, and spent
calories `(1 + 1.1) * 2 * 80 = 336`. -/
theorem swimming_sample_metrics :
    read_package "SWM" [720, 1, 80, 25, 40] = .ok (.swimming 720 1 80 25 40) ∧
    (Training.swimming 720 1 80 25 40).get_distance = 0.9936 ∧
    roundTo3 (Training.swimming 720 1 80 25 40).get_distance = 0.994 ∧
    (Training.swimming 720 1 80 25 40).get_mean_speed = 1 ∧
    (Training.swimming 720 1 80 25 40).get_spent_calories = (1 + 1.1) * 2 * 80 ∧
    (Training.swimming 720 1 80 25 40).get_spent_calories = 336 := by
  refine ⟨rfl, ?_, ?_, ?_, ?_, ?_⟩
  · norm_num [Training.get_distance, Training.action, Training.LEN_STEP, M_IN_KM]
  · norm_num [roundTo3, Training.get_distance, Training.action, Training.LEN_STEP,
      M_IN_KM, Int.floor_eq_iff]
  · norm_num [Training.get_mean_speed, M_IN_KM]
  · norm_num [Training.get_spent_calories, Training.get_mean_speed, Training.weight,
      M_IN_KM, Swimming.MEAN_SPEED_TERM, Swimming.WEIGHT_FACTOR]
  · norm_num [Training.get_spent_calories, Training.get_mean_speed, Training.weight,
      M_IN_KM, Swimming.MEAN_SPEED_TERM, Swimming.WEIGHT_FACTOR]

/-- C9 counterexample: for `Running` the calorie formula has the factor
`18 * mean_speed - 20`, which is negative at slow speeds, so spent
calories can strictly decrease as weight grows: with `action = 1000`,
`duration = 1` (mean speed `0.65`), weights `1 < 2` give calories
`-0.498 > -0.996`. -/
theorem running_calories_weight_antitone_example :
    (Training.running 1000 1 1).weight < (Training.running 1000 1 2).weight ∧
    (Training.running 1000 1 2).get_spent_calories
      < (Training.running 1000 1 1).get_spent_calories := by
  constructor
  · norm_num [Training.weight]
  · norm_num [Training.get_spent_calories, Training.get_mean_speed,
      Training.get_distance, Training.duration_minutes, Training.action,
      Training.duration, Training.weight, Training.LEN_STEP, M_IN_KM, MIN_IN_H,
      Running.MEAN_SPEED_FACTOR, Running.MEAN_SPEED_SUBTRAHEND]

lemma running_cal_mono_aux (s d w₁ w₂ : ℚ) (hd : 0 < d) (hs : 20 < 18 * s)
    (hw : w₁ < w₂) :
    (18 * s - 20) * w₁ / 1000 * (d * 60) < (18 * s - 20) * w₂ / 1000 * (d * 60) := by
  nlinarith [mul_pos (mul_pos (sub_pos.2 hs) hd) (sub_pos.2 hw)]

lemma walking_cal_mono_aux (F d w₁ w₂ : ℚ) (hd : 0 < d) (hF : 0 ≤ F)
    (hw : w₁ < w₂) :
    d * 60 * (0.035 * w₁ + F * 0.029 * w₁) < d * 60 * (0.035 * w₂ + F * 0.029 * w₂) := by
  have h1 : 0 < d * (w₂ - w₁) := mul_pos hd (sub_pos.2 hw)
  have h2 : 0 ≤ F * (d * (w₂ - w₁)) := mul_nonneg hF h1.le
  nlinarith [h1, h2]

lemma swimming_cal_mono_aux (s w₁ w₂ : ℚ) (hs : 0 ≤ s) (hw : w₁ < w₂) :
    (s + 1.1) * 2 * w₁ < (s + 1.1) * 2 * w₂ := by nlinarith

/-- C9 amended: with a positive `duration` (and, per variant, the conditions
forced by the formulas: for `Running` a mean speed above `20 / 18`, for
`SportsWalking` a positive `height`, for `Swimming` nonnegative
`length_pool` and `count_pool`), `get_spent_calories()` is strictly
increasing in `weight` with all other fields fixed, for all three
variants. -/
theorem spent_calories_monotone_in_weight :
    (∀ action duration w₁ w₂ : ℚ, 0 < duration →
        20 < 18 * (Training.running action duration w₁).get_mean_speed →
        w₁ < w₂ →
        (Training.running action duration w₁).get_spent_calories
          < (Training.running action duration w₂).get_spent_calories) ∧
    (∀ action duration w₁ w₂ height : ℚ, 0 < duration → 0 < height →
        w₁ < w₂ →
        (Training.sportsWalking action duration w₁ height).get_spent_calories
          < (Training.sportsWalking action duration w₂ height).get_spent_calories) ∧
    (∀ action duration w₁ w₂ length_pool count_pool : ℚ,
        0 < duration → 0 ≤ length_pool → 0 ≤ count_pool →
        w₁ < w₂ →
        (Training.swimming action duration w₁ length_pool count_pool).get_spent_calories
          < (Training.swimming action duration w₂ length_pool count_pool).get_spent_calories) := by
  refine ⟨?_, ?_, ?_⟩
  · intro action duration w₁ w₂ hd hs hw
    simp only [Training.get_spent_calories, Training.get_mean_speed,
      Training.get_distance, Training.duration_minutes, Training.action,
      Training.duration, Training.weight, Training.LEN_STEP, M_IN_KM, MIN_IN_H,
      Running.MEAN_SPEED_FACTOR, Running.MEAN_SPEED_SUBTRAHEND] at hs ⊢
    exact running_cal_mono_aux _ _ _ _ hd hs hw
  · intro action duration w₁ w₂ height hd hh hw
    have hF : (0 : ℚ) ≤ floordiv ((Training.sportsWalking action duration w₁ height).get_mean_speed ^ 2) height := by
      have hx : (0 : ℚ) ≤ (Training.sportsWalking action duration w₁ height).get_mean_speed ^ 2 / height :=
        div_nonneg (sq_nonneg _) hh.le
      unfold floordiv
      exact_mod_cast Int.floor_nonneg.2 hx
    simp only [Training.get_spent_calories, Training.get_mean_speed,
      Training.get_distance, Training.duration_minutes, Training.action,
      Training.duration, Training.weight, Training.LEN_STEP, M_IN_KM, MIN_IN_H,
      SportsWalking.WEIGHT_FACTOR_1, SportsWalking.WEIGHT_FACTOR_2] at hF ⊢
    exact walking_cal_mono_aux _ _ _ _ hd hF hw
  · intro action duration w₁ w₂ length_pool count_pool hd hlp hcp hw
    have hs : (0 : ℚ) ≤ (Training.swimming action duration w₁ length_pool count_pool).get_mean_speed := by
      simp only [Training.get_mean_speed, M_IN_KM]
      positivity
    simp only [Training.get_spent_calories, Training.get_mean_speed,
      Training.weight, M_IN_KM, Swimming.MEAN_SPEED_TERM,
      Swimming.WEIGHT_FACTOR] at hs ⊢
    exact swimming_cal_mono_aux _ _ _ hs hw

/-- Witness for the amended C9 at the driver's sample records, with weights
`1 < 2` in place of the samples' weights. -/
theorem spent_calories_monotone_in_weight_witness :
    (Training.running 15000 1 1).get_spent_calories
      < (Training.running 15000 1 2).get_spent_calories ∧
    (Training.sportsWalking 9000 1 1 180).get_spent_calories
      < (Training.sportsWalking 9000 1 2 180).get_spent_calories ∧
    (Training.swimming 720 1 1 25 40).get_spent_calories
      < (Training.swimming 720 1 2 25 40).get_spent_calories :=
  ⟨spent_calories_monotone_in_weight.1 15000 1 1 2 (by norm_num)
      (by norm_num [Training.get_mean_speed, Training.get_distance, Training.action,
        Training.duration, Training.LEN_STEP, M_IN_KM])
      (by norm_num),
   spent_calories_monotone_in_weight.2.1 9000 1 1 2 180 (by norm_num) (by norm_num)
      (by norm_num),
   spent_calories_monotone_in_weight.2.2 720 1 1 2 25 40 (by norm_num) (by norm_num)
      (by norm_num) (by norm_num)⟩
